import Mathlib

/-!
Verification development for the EcoTrade IoT backend.

The JavaScript source is shallowly embedded: JSON values become an
inductive `JsVal`, stateful controllers become pure functions over an
explicit `ServerState`, MongoDB lookups become `List.find?`, and the
archive aggregation pipeline becomes a pure function over lists of raw
activity records.  Timestamps are natural numbers counting seconds since
the epoch (UTC); `dayOf`/`hourOf` mirror `$dateTrunc`/`$hour`.
JavaScript numbers that flow through the payload are modelled as
rationals, since `validatePayload` admits any `typeof === 'number'`
value, integral or not.
-/

namespace EcoTrade

/-- A JavaScript value as it can appear in a decrypted JSON payload.
`none` at the field level models an absent field (`undefined`). -/
inductive JsVal where
  | vNull : JsVal
  | vBool : Bool → JsVal
  | vNum : ℚ → JsVal
  | vStr : String → JsVal
deriving DecidableEq

/-- JavaScript truthiness of a value (`NaN` is not modelled). -/
def jsTruthy : JsVal → Bool
  | .vNull => false
  | .vBool b => b
  | .vNum q => decide (q ≠ 0)
  | .vStr s => decide (s ≠ "")

/-- Truthiness of a possibly-absent value (`undefined` is falsy). -/
def jsTruthyOpt : Option JsVal → Bool
  | none => false
  | some v => jsTruthy v

/-- JavaScript string coercion, as used by template interpolation. -/
def jsShow : JsVal → String
  | .vNull => "null"
  | .vBool b => if b then "true" else "false"
  | .vNum q => toString q
  | .vStr s => s

/-- Coercion of a possibly-absent value (`undefined` renders as such). -/
def jsShowOpt : Option JsVal → String
  | none => "undefined"
  | some v => jsShow v

/-- Decrypted QR payload: the four fields read by `validatePayload` and
the scan controllers (src/utils/crypto.js, src/controllers/scanController.js).
`none` models a field absent from the JSON object. -/
structure RawPayload where
  deviceId : Option JsVal
  type : Option JsVal
  action : Option JsVal
  uniqueCode : Option JsVal
deriving DecidableEq

/-- Result of `validatePayload` (src/utils/crypto.js lines 96-130). -/
inductive ValResult where
  | valid : ValResult
  | invalid : String → ValResult
deriving DecidableEq

/-- A field is rejected when it is `undefined` or `null`
(`payload[field] === undefined || payload[field] === null`). -/
def missingField (v : Option JsVal) : Bool :=
  decide (v = none ∨ v = some JsVal.vNull)

/-- Embedding of `validatePayload` (src/utils/crypto.js lines 96-130).
The input is `none` when the caller passes a falsy payload
(`if (!payload)`).  Fields are checked in the source order
deviceId, type, action, uniqueCode; then the action enum; then
`typeof payload.uniqueCode !== 'number'`. -/
def validatePayload : Option RawPayload → ValResult
  | none => .invalid "Empty payload"
  | some p =>
    if missingField p.deviceId then .invalid "Missing field: deviceId"
    else if missingField p.type then .invalid "Missing field: type"
    else if missingField p.action then .invalid "Missing field: action"
    else if missingField p.uniqueCode then .invalid "Missing field: uniqueCode"
    else if ¬ (p.action = some (JsVal.vStr "SCAN") ∨ p.action = some (JsVal.vStr "REGISTER")) then
      .invalid ("Invalid action: " ++ jsShowOpt p.action)
    else
      match p.uniqueCode with
      | some (JsVal.vNum _) => .valid
      | _ => .invalid "uniqueCode must be a number"

/-! ## Data model (src/models) -/

/-- Device record (src/models/Device.js).  `oid` is the Mongo `_id`;
`deviceId` is the hardware id; `lastUniqueCode` defaults to 0 but may be
absent on old records, which the controllers normalise with `|| 0`. -/
structure Device where
  oid : String
  deviceId : String
  name : String
  type : String
  workspaceId : Nat
  lastUniqueCode : Option ℚ
deriving DecidableEq

/-- `device.lastUniqueCode || 0` as used by the replay check. -/
def lastCode (d : Device) : ℚ := d.lastUniqueCode.getD 0

structure WorkspaceRec where
  wid : Nat
  name : String
deriving DecidableEq

/-- Workspace membership (src/models/WorkspaceMember.js): per-workspace
points and scan counters plus the join date used as the default sync bound. -/
structure Membership where
  workspaceId : Nat
  userId : Nat
  points : Nat
  scanCount : Nat
  joinedDate : Nat
deriving DecidableEq

/-- User record: cross-workspace global counters (src/models/User.js). -/
structure UserRec where
  uid : Nat
  points : Nat
  scanCount : Nat
deriving DecidableEq

/-- Raw activity record (src/models/Activity.js) as written by the scan
controllers and read by the activity/export queries. -/
structure ActivityRec where
  workspaceId : Nat
  userId : Nat
  deviceOid : Option String
  deviceType : String
  type : String
  title : String
  description : String
  points : Int
  createdAt : Nat
deriving DecidableEq

/-- The document store plus the request clock, threaded explicitly. -/
structure ServerState where
  devices : List Device
  workspaces : List WorkspaceRec
  memberships : List Membership
  users : List UserRec
  activities : List ActivityRec
  now : Nat
deriving DecidableEq

/-! ### Store lookups and keyed updates -/

def findMembership (s : ServerState) (workspaceId userId : Nat) : Option Membership :=
  s.memberships.find? (fun m => decide (m.workspaceId = workspaceId ∧ m.userId = userId))

def findUser (s : ServerState) (userId : Nat) : Option UserRec :=
  s.users.find? (fun u => decide (u.uid = userId))

def workspaceName (s : ServerState) (workspaceId : Nat) : String :=
  match s.workspaces.find? (fun w => decide (w.wid = workspaceId)) with
  | some w => w.name
  | none => "Unknown"

/-- `Device.findOne({deviceId: v})`: Mongo equality is type-sensitive, so a
non-string payload value never matches the string `deviceId` field. -/
def findDeviceByDeviceId (s : ServerState) (v : JsVal) : Option Device :=
  s.devices.find? (fun d => decide (JsVal.vStr d.deviceId = v))

/-- `Device.findOne({_id: oid})`. -/
def findDeviceByOid (s : ServerState) (oid : String) : Option Device :=
  s.devices.find? (fun d => decide (d.oid = oid))

/-- `Device.findOne({deviceId: v, workspaceId})`. -/
def findDeviceByDeviceIdInWs (s : ServerState) (v : JsVal) (workspaceId : Nat) : Option Device :=
  s.devices.find? (fun d => decide (JsVal.vStr d.deviceId = v ∧ d.workspaceId = workspaceId))

/-- `Device.findOne({_id: oid, workspaceId})`. -/
def findDeviceByOidInWs (s : ServerState) (oid : String) (workspaceId : Nat) : Option Device :=
  s.devices.find? (fun d => decide (d.oid = oid ∧ d.workspaceId = workspaceId))

/-- The 24-hex-character ObjectId shape test `/^[0-9a-fA-F]{24}$/`. -/
def isHex24 (str : String) : Bool :=
  decide (str.length = 24) && str.all (fun c =>
    c.isDigit || (decide ('a' ≤ c) && decide (c ≤ 'f')) || (decide ('A' ≤ c) && decide (c ≤ 'F')))

/-- `device.save()`: write back the device with Mongo `_id` `d.oid`. -/
def updateDevice (s : ServerState) (d : Device) : ServerState :=
  { s with devices := s.devices.map (fun x => if x.oid = d.oid then d else x) }

/-- `membership.save()`: write back by the unique (workspaceId, userId) key. -/
def updateMembership (s : ServerState) (m : Membership) : ServerState :=
  { s with memberships := s.memberships.map (fun x =>
      if x.workspaceId = m.workspaceId ∧ x.userId = m.userId then m else x) }

/-- `user.save()`: write back by user id. -/
def updateUser (s : ServerState) (u : UserRec) : ServerState :=
  { s with users := s.users.map (fun x => if x.uid = u.uid then u else x) }

/-! ## Scan processor (src/controllers/scanController.js) -/

/-- Every early-return failure of the two scan endpoints. -/
inductive ScanErr where
  | missingPayload : ScanErr
  | decryptionFailed : ScanErr
  | invalidPayload : String → ScanErr
  | missingAction : ScanErr
  | actionNotInEnum : String → ScanErr
  | invalidAction : String → ScanErr
  | deviceNotFoundGlobal : ScanErr
  | deviceNotFound : ScanErr
  | workspaceMismatch : Nat → String → Bool → ScanErr
  | notAMemberGlobal : String → ScanErr
  | notAMember : ScanErr
  | replayDetected : ScanErr
  | userNotFound : ScanErr
  | scanException : ScanErr
deriving DecidableEq

/-- The caller-visible `(error, message)` pair for each failure, exactly
as written in the controller responses. -/
def scanErrMessage : ScanErr → String × String
  | .missingPayload =>
      ("Missing encrypted payload",
       "QR code ini tidak valid. Gunakan QR code yang telah dienkripsi.")
  | .decryptionFailed =>
      ("Decryption failed",
       "Invalid or corrupted QR code. Please try scanning again.")
  | .invalidPayload r => ("Invalid payload", r)
  | .missingAction =>
      ("Missing action field", "QR code must contain an action field")
  | .actionNotInEnum got =>
      ("Invalid action \"" ++ got ++ "\"", "Action must be SCAN or REGISTER")
  | .invalidAction got =>
      ("Invalid action for earning points. Got \"" ++ got ++ "\"",
       "This QR code is for device registration. Please use the Add Device feature.")
  | .deviceNotFoundGlobal =>
      ("Device not recognized", "Perangkat ini tidak terdaftar di sistem.")
  | .deviceNotFound =>
      ("Device not recognized", "Perangkat ini tidak terdaftar di workspace Anda.")
  | .workspaceMismatch _ _ _ =>
      ("Workspace mismatch", "This device belongs to a different workspace")
  | .notAMemberGlobal wsName =>
      ("Not a member of this workspace",
       "Perangkat ini milik workspace \"" ++ wsName ++ "\", tapi Anda bukan anggotanya.")
  | .notAMember =>
      ("Not a member of this workspace",
       "You must be a member of this workspace to scan devices")
  | .replayDetected =>
      ("QR code sudah dipakai",
       "QR code ini sudah pernah di-scan. Tunggu QR code baru dari mesin.")
  | .userNotFound => ("User not found", "")
  | .scanException => ("Failed to process scan", "TypeError")

/-- Success payload of a scan response. -/
structure ScanSuccess where
  pointsEarned : Nat
  workspacePoints : Nat
  totalPoints : Nat
  scanCount : Nat
  activityId : Nat
  activityTitle : String
deriving DecidableEq

inductive ScanOutcome where
  | ok : ScanSuccess → ScanOutcome
  | fail : ScanErr → ScanOutcome
deriving DecidableEq

/-- `String.replace(s, '_', ' ')` with a string argument replaces only
the first occurrence in JavaScript. -/
def replaceFirstUnderscoreAux : List Char → List Char
  | [] => []
  | c :: rest => if c = '_' then ' ' :: rest else c :: replaceFirstUnderscoreAux rest

def replaceFirstUnderscore (str : String) : String :=
  String.mk (replaceFirstUnderscoreAux str.data)

/-- `workspace?.name || dflt`. -/
def workspaceNameOr (s : ServerState) (workspaceId : Nat) (dflt : String) : String :=
  match s.workspaces.find? (fun w => decide (w.wid = workspaceId)) with
  | some w => w.name
  | none => dflt

/-- Award-and-log step shared by both endpoints (scanController.js
lines 185-239 and 423-473): bump the membership counters, bump the
global user counters when a user record exists, append one SCAN
activity, and assemble the response. -/
def finishScan (userId workspaceId : Nat) (finalType : Option JsVal)
    (device : Device) (m : Membership) (uopt : Option UserRec) (s : ServerState) :
    ScanOutcome × ServerState :=
  let m2 := { m with points := m.points + 10, scanCount := m.scanCount + 1 }
  let u2 := uopt.map (fun u => { u with points := u.points + 10, scanCount := u.scanCount + 1 })
  let act : ActivityRec :=
    { workspaceId := workspaceId, userId := userId, deviceOid := some device.oid,
      deviceType := if jsTruthyOpt finalType then jsShowOpt finalType else device.type,
      type := "SCAN", title := "Waste Scanned",
      description := device.name ++ " • " ++ replaceFirstUnderscore device.type,
      points := 10, createdAt := s.now }
  let s1 := updateMembership s m2
  let s2 := match u2 with
    | some u => updateUser s1 u
    | none => s1
  let s3 := { s2 with activities := s2.activities ++ [act] }
  (.ok { pointsEarned := 10, workspacePoints := m2.points,
         totalPoints := match u2 with
           | some u => u.points
           | none => m2.points,
         scanCount := m2.scanCount, activityId := s.activities.length,
         activityTitle := act.title }, s3)

/-- Device resolution of the global endpoint (lines 100-124): look up by
hardware id across all workspaces, then fall back to `_id` when the value
lexically looks like an ObjectId.  `finalDeviceId.match` on a non-string
value throws a TypeError which the surrounding handler turns into a 500. -/
def resolveGlobalDevice (s : ServerState) (finalDeviceId : JsVal) : Except ScanErr Device :=
  match findDeviceByDeviceId s finalDeviceId with
  | some d => .ok d
  | none =>
    match finalDeviceId with
    | JsVal.vStr str =>
      if isHex24 str then
        match findDeviceByOid s str with
        | some d => .ok d
        | none => .error .deviceNotFoundGlobal
      else .error .deviceNotFoundGlobal
    | _ => .error .scanException

/-- Global scan endpoint `scanDeviceGlobal` (lines 21-251).  Decryption
is a parameter: the AES-128-CBC codec is out of scope and the controller
only observes success (`some payload`) or failure (`null`). -/
def scanDeviceGlobal (decrypt : String → Option RawPayload) (userId : Nat)
    (encryptedPayload : Option String) (s : ServerState) : ScanOutcome × ServerState :=
  match encryptedPayload with
  | none => (.fail .missingPayload, s)
  | some blob =>
    match decrypt blob with
    | none => (.fail .decryptionFailed, s)
    | some p =>
      match validatePayload (some p) with
      | .invalid r => (.fail (.invalidPayload r), s)
      | .valid =>
        if p.action ≠ some (JsVal.vStr "SCAN") then
          (.fail (.invalidAction (jsShowOpt p.action)), s)
        else
          -- validation guarantees deviceId is present; getD only totalises
          match resolveGlobalDevice s (p.deviceId.getD JsVal.vNull) with
          | .error e => (.fail e, s)
          | .ok device =>
            match findMembership s device.workspaceId userId with
            | none =>
              (.fail (.notAMemberGlobal (workspaceNameOr s device.workspaceId "Unknown")), s)
            | some m =>
              -- replay attack protection (lines 160-183)
              match p.uniqueCode with
              | some (JsVal.vNum q) =>
                if q ≤ lastCode device then (.fail .replayDetected, s)
                else
                  let device2 := { device with lastUniqueCode := some q }
                  let s2 := updateDevice s device2
                  finishScan userId device.workspaceId p.type device2 m (findUser s2 userId) s2
              | _ =>
                -- unreachable after validation: uniqueCode is present and numeric
                finishScan userId device.workspaceId p.type device m (findUser s userId) s

/-- Request body of the workspace-scoped scan endpoint: either the
encrypted form or the legacy plain form (lines 267, 277-316). -/
structure ScanBody where
  encryptedPayload : Option String
  deviceId : Option String
  action : Option String
  type : Option String
deriving DecidableEq

/-- Normalisation of the two request forms (lines 277-316): the encrypted
path decrypts and validates, the legacy path takes the plain fields
directly.  Both converge on `(payload?, deviceId, action, type)`. -/
def normalizeScanBody (decrypt : String → Option RawPayload) (body : ScanBody) :
    Except ScanErr (Option RawPayload × Option JsVal × Option JsVal × Option JsVal) :=
  match body.encryptedPayload with
  | some blob =>
    match decrypt blob with
    | none => .error .decryptionFailed
    | some p =>
      match validatePayload (some p) with
      | .invalid r => .error (.invalidPayload r)
      | .valid => .ok (some p, p.deviceId, p.action, p.type)
  | none =>
    .ok (none, body.deviceId.map JsVal.vStr, body.action.map JsVal.vStr,
         body.type.map JsVal.vStr)

/-- `Device.findOne({deviceId, workspaceId})` where `deviceId` may be
`undefined` on the legacy path: Mongoose strips undefined query keys, so
the query degenerates to a workspace-only lookup. -/
def findDeviceInWsOpt (s : ServerState) (v : Option JsVal) (workspaceId : Nat) : Option Device :=
  match v with
  | some jv => findDeviceByDeviceIdInWs s jv workspaceId
  | none => s.devices.find? (fun d => decide (d.workspaceId = workspaceId))

/-- The better-error lookup (lines 372-394): if the device exists in some
other workspace, answer `workspaceMismatch` with a redirect hint naming
the true workspace and whether the caller is a member there. -/
def elsewhereCheck (s : ServerState) (finalDeviceId : JsVal) (userId : Nat) :
    Except ScanErr Device :=
  match findDeviceByDeviceId s finalDeviceId with
  | some dElse =>
    .error (.workspaceMismatch dElse.workspaceId
      (workspaceNameOr s dElse.workspaceId "Unknown Workspace")
      ((findMembership s dElse.workspaceId userId).isSome))
  | none => .error .deviceNotFound

/-- Device resolution of the workspace-scoped endpoint (lines 357-400):
hardware id scoped to the workspace, `_id` fallback scoped to the
workspace, then the cross-workspace hint.  A non-string or undefined
`finalDeviceId` reaching `.match` throws (caught as a 500). -/
def resolveWorkspaceDevice (s : ServerState) (finalDeviceId : Option JsVal)
    (workspaceId userId : Nat) : Except ScanErr Device :=
  match findDeviceInWsOpt s finalDeviceId workspaceId with
  | some d => .ok d
  | none =>
    match finalDeviceId with
    | some (JsVal.vStr str) =>
      if isHex24 str then
        match findDeviceByOidInWs s str workspaceId with
        | some d => .ok d
        | none => elsewhereCheck s (JsVal.vStr str) userId
      else elsewhereCheck s (JsVal.vStr str) userId
    | _ => .error .scanException

/-- Steps after device resolution in the workspace-scoped endpoint:
`User.findById` is strict here (lines 424-430), then award and log. -/
def awardWorkspaceScan (userId workspaceId : Nat) (finalType : Option JsVal)
    (device : Device) (m : Membership) (s : ServerState) : ScanOutcome × ServerState :=
  match findUser s userId with
  | none => (.fail .userNotFound, s)
  | some u => finishScan userId workspaceId finalType device m (some u) s

/-- Workspace-scoped scan endpoint `scanDevice` (lines 265-483).  Note
the source order: action gate, then membership gate, then device
resolution, then replay protection (encrypted payloads only). -/
def scanDevice (decrypt : String → Option RawPayload) (userId workspaceIdFromUrl : Nat)
    (body : ScanBody) (s : ServerState) : ScanOutcome × ServerState :=
  match normalizeScanBody decrypt body with
  | .error e => (.fail e, s)
  | .ok (payload, finalDeviceId, finalAction, finalType) =>
    if ¬ jsTruthyOpt finalAction then (.fail .missingAction, s)
    else if ¬ (finalAction = some (JsVal.vStr "SCAN") ∨
               finalAction = some (JsVal.vStr "REGISTER")) then
      (.fail (.actionNotInEnum (jsShowOpt finalAction)), s)
    else if finalAction ≠ some (JsVal.vStr "SCAN") then
      (.fail (.invalidAction (jsShowOpt finalAction)), s)
    else
      match findMembership s workspaceIdFromUrl userId with
      | none => (.fail .notAMember, s)
      | some m =>
        match resolveWorkspaceDevice s finalDeviceId workspaceIdFromUrl userId with
        | .error e => (.fail e, s)
        | .ok device =>
          -- replay attack protection (lines 402-421), encrypted payloads only
          match payload with
          | some p =>
            match p.uniqueCode with
            | some (JsVal.vNum q) =>
              if q ≤ lastCode device then (.fail .replayDetected, s)
              else
                let device2 := { device with lastUniqueCode := some q }
                awardWorkspaceScan userId workspaceIdFromUrl finalType device2 m
                  (updateDevice s device2)
            | _ =>
              -- unreachable after validation: uniqueCode is present and numeric
              awardWorkspaceScan userId workspaceIdFromUrl finalType device m s
          | none => awardWorkspaceScan userId workspaceIdFromUrl finalType device m s

/-! ## Activity log store (src/controllers/activityController.js) -/

/-- `getActivities` (lines 5-75): membership gate, then a query whose
lower bound is the caller-supplied `since` or, failing that, the
membership join date.  The Mongo filter is `createdAt: { $gte: lowerBound }`,
most recent first, with an optional limit. -/
def getActivities (s : ServerState) (workspaceId userId : Nat)
    (since : Option Nat) (limit : Option Nat) : Except String (List ActivityRec) :=
  match findMembership s workspaceId userId with
  | none => .error "Not a member of this workspace"
  | some m =>
    let lowerBound := match since with
      | some t => t
      | none => m.joinedDate
    let filtered := s.activities.filter (fun a =>
      decide (a.workspaceId = workspaceId ∧ lowerBound ≤ a.createdAt))
    let sorted := filtered.mergeSort (fun a b => decide (b.createdAt ≤ a.createdAt))
    .ok (match limit with
      | some n => sorted.take n
      | none => sorted)

/-! ## Archive compactor (src/services/activityArchiveService.js) -/

/-- Seconds in one day and one hour (UTC calendar arithmetic). -/
def dayOf (t : Nat) : Nat := t / 86400

/-- `$hour` of a UTC timestamp. -/
def hourOf (t : Nat) : Nat := t % 86400 / 3600

/-- Raw activity as read by the aggregation pipeline: only the grouped
fields matter. -/
structure RawAct where
  workspaceId : Nat
  userId : Nat
  type : String
  deviceType : String
  points : Int
  createdAt : Nat
deriving DecidableEq

/-- Stage-2 grouping key: (workspace, type, deviceType, day, hour). -/
structure HourKey where
  workspaceId : Nat
  type : String
  deviceType : String
  day : Nat
  hour : Nat
deriving DecidableEq

def hourKeyOf (a : RawAct) : HourKey :=
  ⟨a.workspaceId, a.type, a.deviceType, dayOf a.createdAt, hourOf a.createdAt⟩

/-- Stage 1: `$match` on `createdAt` in `[start, stop)`. -/
def matchStage (start stop : Nat) (raw : List RawAct) : List RawAct :=
  raw.filter (fun a => decide (start ≤ a.createdAt ∧ a.createdAt < stop))

/-- One timeline bucket of a day document. -/
structure TimelineEntry where
  hour : Nat
  type : String
  deviceType : String
  count : Nat
  points : Int
  userIds : List Nat
deriving DecidableEq

structure DayStats where
  totalPoints : Int
  totalActivities : Nat
  activeUsersCount : Nat
deriving DecidableEq

/-- Archive day document (src/models/ActivityArchive.js schema in
src/models/WorkspaceMember.js part): keyed by (workspaceId, date). -/
structure ArchiveDoc where
  workspaceId : Nat
  date : Nat
  stats : DayStats
  timeline : List TimelineEntry
deriving DecidableEq

/-- The raw events of one stage-2 bucket. -/
def bucketEvents (matched : List RawAct) (k : HourKey) : List RawAct :=
  matched.filter (fun a => decide (hourKeyOf a = k))

/-- Stage 2 output for one key: `$sum: 1`, `$sum: points`,
`$addToSet: userId` (distinct user ids). -/
def entryOf (matched : List RawAct) (k : HourKey) : TimelineEntry :=
  let evs := bucketEvents matched k
  ⟨k.hour, k.type, k.deviceType, evs.length, (evs.map RawAct.points).sum,
   (evs.map RawAct.userId).dedup⟩

/-- The distinct stage-2 keys occurring in the matched data. -/
def hourKeys (matched : List RawAct) : List HourKey :=
  (matched.map hourKeyOf).dedup

/-- Stages 3-4 for one (workspace, day): daily totals are sums over the
buckets; `activeUsersCount` is `$size` of the `$setUnion` of the
concatenated per-bucket user-id sets. -/
def dayDocOf (matched : List RawAct) (w d : Nat) : ArchiveDoc :=
  let ks := (hourKeys matched).filter (fun k => decide (k.workspaceId = w ∧ k.day = d))
  let timeline := ks.map (entryOf matched)
  { workspaceId := w, date := d,
    stats := { totalPoints := (timeline.map TimelineEntry.points).sum,
               totalActivities := (timeline.map TimelineEntry.count).sum,
               activeUsersCount := ((timeline.map TimelineEntry.userIds).flatten).dedup.length },
    timeline := timeline }

/-- Stages 1-4 of `archiveActivities` (lines 16-126): the day documents
computed from the raw data in `[start, stop)`.  Group output order,
unspecified in the engine, is resolved deterministically by first
occurrence. -/
def archiveDayDocs (start stop : Nat) (raw : List RawAct) : List ArchiveDoc :=
  let matched := matchStage start stop raw
  (((hourKeys matched).map (fun k => (k.workspaceId, k.day))).dedup).map
    (fun p => dayDocOf matched p.1 p.2)

/-- The `$merge` key `on: ["workspaceId", "date"]`. -/
def docKey (d : ArchiveDoc) : Nat × Nat := (d.workspaceId, d.date)

/-- Stage 5: `$merge` with `whenMatched: "replace"`, `whenNotMatched:
"insert"` — replace each archive document whose key is produced, append
the produced documents with fresh keys. -/
def mergeDocs (docs archive : List ArchiveDoc) : List ArchiveDoc :=
  archive.map (fun a => (docs.find? (fun d => decide (docKey d = docKey a))).getD a)
    ++ docs.filter (fun d => !(archive.any (fun a => decide (docKey a = docKey d))))

/-- `archiveActivities(startDate, endDate)` as a state transformer on the
archive collection. -/
def archiveActivities (start stop : Nat) (raw : List RawAct)
    (archive : List ArchiveDoc) : List ArchiveDoc :=
  mergeDocs (archiveDayDocs start stop raw) archive

/-! ## Archive query service (activityArchiveService.js lines 152-222,
deviceController.js lines 1012-1086) -/

structure DailyBreakdownItem where
  date : Nat
  points : Int
  activities : Nat
  users : Nat
deriving DecidableEq

structure ArchivedStats where
  period : String
  totalPoints : Int
  totalActivities : Nat
  uniqueUsers : Nat
  dailyBreakdown : List DailyBreakdownItem
deriving DecidableEq

/-- The archive documents selected by a `days` lookback: `date >=`
midnight UTC of `now - days` days, most recent first.  `ArchiveDoc.date`
is a day number, so the comparison is on days. -/
def selectArchives (archive : List ArchiveDoc) (now workspaceId days : Nat) :
    List ArchiveDoc :=
  (archive.filter (fun a =>
      decide (a.workspaceId = workspaceId ∧ dayOf (now - days * 86400) ≤ a.date)))

/-- `getArchivedStats` (activityArchiveService.js lines 152-192): sum the
day stats, take the union of all timeline user-id sets across the whole
window, and list the per-day breakdown. -/
def getArchivedStats (archive : List ArchiveDoc) (now : Nat)
    (workspaceId : Nat) (days : Nat) : ArchivedStats :=
  let docs := (selectArchives archive now workspaceId days).mergeSort
    (fun a b => decide (b.date ≤ a.date))
  { period := "last_" ++ toString days ++ "_days",
    totalPoints := (docs.map (fun d => d.stats.totalPoints)).sum,
    totalActivities := (docs.map (fun d => d.stats.totalActivities)).sum,
    uniqueUsers :=
      ((docs.map (fun d => (d.timeline.map TimelineEntry.userIds).flatten)).flatten).dedup.length,
    dailyBreakdown := docs.map (fun d =>
      { date := d.date, points := d.stats.totalPoints,
        activities := d.stats.totalActivities,
        users := d.stats.activeUsersCount }) }

structure TypeStat where
  type : String
  count : Nat
  points : Int
deriving DecidableEq

/-- `getActivityTypeBreakdown` (lines 199-222): fold every timeline entry
of the selected documents into a per-type accumulator, keyed in
first-occurrence order like a JavaScript object. -/
def getActivityTypeBreakdown (archive : List ArchiveDoc) (now : Nat)
    (workspaceId : Nat) (days : Nat) : List TypeStat :=
  let entries := ((selectArchives archive now workspaceId days).map ArchiveDoc.timeline).flatten
  ((entries.map TimelineEntry.type).dedup).map (fun t =>
    let own := entries.filter (fun e => decide (e.type = t))
    { type := t, count := (own.map TimelineEntry.count).sum,
      points := (own.map TimelineEntry.points).sum })

/-- Result of the two admin archive endpoints. -/
inductive DaysCheckedResult (α : Type) where
  | ok : α → DaysCheckedResult α
  | invalidDays : DaysCheckedResult α
deriving DecidableEq

/-- `parseInt(req.query.days) || dflt`: an absent or unparseable query
gives NaN and a literal `0` is falsy, so both fall back to the default. -/
def parseDaysOr (dflt : Int) (daysQuery : Option Int) : Int :=
  match daysQuery with
  | none => dflt
  | some n => if n = 0 then dflt else n

/-- `getWorkspaceArchiveStats` (deviceController.js lines 1012-1043):
default 7, then reject `days < 1 || days > 365`. -/
def getWorkspaceArchiveStats (daysQuery : Option Int) (archive : List ArchiveDoc)
    (now workspaceId : Nat) : DaysCheckedResult ArchivedStats :=
  let days := parseDaysOr 7 daysQuery
  if days < 1 ∨ days > 365 then .invalidDays
  else .ok (getArchivedStats archive now workspaceId days.toNat)

/-- `getWorkspaceTypeBreakdown` (deviceController.js lines 1051-1086):
default 30, same bounds check. -/
def getWorkspaceTypeBreakdown (daysQuery : Option Int) (archive : List ArchiveDoc)
    (now workspaceId : Nat) : DaysCheckedResult (List TypeStat) :=
  let days := parseDaysOr 30 daysQuery
  if days < 1 ∨ days > 365 then .invalidDays
  else .ok (getActivityTypeBreakdown archive now workspaceId days.toNat)

/-! ## Activity export (src/controllers/activityExportController.js) -/

/-- `thirtyDaysAgo` (lines 54-55). -/
def retentionFloor (now : Nat) : Nat := now - 30 * 86400

/-- `start && start > thirtyDaysAgo ? start : thirtyDaysAgo` (line 57). -/
def effectiveStart (startDate : Option Nat) (now : Nat) : Nat :=
  match startDate with
  | some st => if st > retentionFloor now then st else retentionFloor now
  | none => retentionFloor now

/-- `end.setHours(23, 59, 59, 999)` (line 48), to whole seconds. -/
def endOfDay (t : Nat) : Nat := dayOf t * 86400 + 86399

/-- The `MY_ACTIVITY` branch of `exportActivities` (lines 15-75, 51-73):
membership gate, then raw `Activity` rows of the caller bounded below by
the 30-day retention floor and filtered by the optional device and
activity types, most recent first, capped at 10000 rows. -/
def exportMyActivity (s : ServerState) (workspaceId userId : Nat)
    (deviceType activityType : Option String) (startDate endDate : Option Nat) :
    Except String (List ActivityRec) :=
  match findMembership s workspaceId userId with
  | none => .error "FORBIDDEN"
  | some _ =>
    let endv := endOfDay (match endDate with
      | some e => e
      | none => s.now)
    let effStart := effectiveStart startDate s.now
    let rows := s.activities.filter (fun a =>
      decide (a.workspaceId = workspaceId ∧ a.userId = userId ∧
        effStart ≤ a.createdAt ∧ a.createdAt ≤ endv ∧
        (∀ t, deviceType = some t → a.deviceType = t) ∧
        (∀ t, activityType = some t → a.type = t)))
    .ok ((rows.mergeSort (fun a b => decide (b.createdAt ≤ a.createdAt))).take 10000)

/-! ## C8: payload validation fails closed -/

/-- C8 counterexample: the claim states that a non-integer `uniqueCode`
is rejected, but `validatePayload` only checks `typeof === 'number'`:
the payload below carries `uniqueCode = 3/2`, which is not an integer,
yet validation succeeds. -/
theorem c8_noninteger_uniqueCode_accepted :
    validatePayload (some
      (⟨some (JsVal.vStr "BIN-004"), some (JsVal.vStr "SMART_BIN"),
        some (JsVal.vStr "SCAN"), some (JsVal.vNum (mkRat 3 2))⟩ : RawPayload)) =
      ValResult.valid ∧ (mkRat 3 2).den ≠ 1 := by
  constructor
  · rfl
  · decide

/-- C8 (amended): validation fails closed — a payload is accepted iff
all four fields are present and non-null, the action is in the
SCAN/REGISTER enum, and `uniqueCode` is a number (not necessarily an
integer); a falsy payload is rejected with the specific reason
"Empty payload", and a missing `deviceId` with its specific reason. -/
theorem c8_validate_fails_closed :
    (∀ p : RawPayload,
      validatePayload (some p) = ValResult.valid ↔
        p.deviceId ≠ none ∧ p.deviceId ≠ some JsVal.vNull ∧
        p.type ≠ none ∧ p.type ≠ some JsVal.vNull ∧
        (p.action = some (JsVal.vStr "SCAN") ∨ p.action = some (JsVal.vStr "REGISTER")) ∧
        ∃ q : ℚ, p.uniqueCode = some (JsVal.vNum q)) ∧
    validatePayload none = ValResult.invalid "Empty payload" ∧
    (∀ p : RawPayload, p.deviceId = none →
      validatePayload (some p) = ValResult.invalid "Missing field: deviceId") := by
  refine ⟨?_, rfl, ?_⟩
  · intro p
    simp only [validatePayload]
    split_ifs with h1 h2 h3 h4 h5
    · refine iff_of_false (by simp) ?_
      simp only [missingField, decide_eq_true_eq] at h1
      rintro ⟨hd1, hd2, -⟩
      rcases h1 with h | h <;> [exact hd1 h; exact hd2 h]
    · refine iff_of_false (by simp) ?_
      simp only [missingField, decide_eq_true_eq] at h2
      rintro ⟨-, -, ht1, ht2, -⟩
      rcases h2 with h | h <;> [exact ht1 h; exact ht2 h]
    · refine iff_of_false (by simp) ?_
      simp only [missingField, decide_eq_true_eq] at h3
      rintro ⟨-, -, -, -, ha, -⟩
      rcases h3 with h | h <;> rcases ha with ha | ha <;> simp [h] at ha
    · refine iff_of_false (by simp) ?_
      simp only [missingField, decide_eq_true_eq] at h4
      rintro ⟨-, -, -, -, -, q, hq⟩
      rcases h4 with h | h <;> simp [h] at hq
    · simp only [missingField, decide_eq_true_eq, not_or] at h1 h2 h3 h4
      cases hu : p.uniqueCode with
      | none => exact absurd hu h4.1
      | some v =>
        cases v with
        | vNull => exact absurd hu h4.2
        | vBool b =>
          refine iff_of_false (by simp) ?_
          rintro ⟨-, -, -, -, -, q, hq⟩
          exact JsVal.noConfusion (Option.some.inj hq)
        | vNum q =>
          exact iff_of_true rfl ⟨h1.1, h1.2, h2.1, h2.2, h5, q, rfl⟩
        | vStr str =>
          refine iff_of_false (by simp) ?_
          rintro ⟨-, -, -, -, -, q, hq⟩
          exact JsVal.noConfusion (Option.some.inj hq)
    · refine iff_of_false (by simp) ?_
      exact fun hc => h5 hc.2.2.2.2.1
  · intro p hp
    have hm : missingField p.deviceId = true := by simp [missingField, hp]
    simp [validatePayload, hm]

/-- C8 witness: a fully well-formed payload is accepted, by the amended
theorem at a concrete input. -/
theorem c8_validate_fails_closed_witness :
    validatePayload (some
      (⟨some (JsVal.vStr "BIN-004"), some (JsVal.vStr "SMART_BIN"),
        some (JsVal.vStr "SCAN"), some (JsVal.vNum 1001)⟩ : RawPayload)) =
      ValResult.valid :=
  (c8_validate_fails_closed.1 _).mpr
    ⟨by decide, by decide, by decide, by decide, Or.inl rfl, 1001, rfl⟩

/-! ## C2: idempotent compaction -/

theorem docKey_dayDocOf (matched : List RawAct) (w d : Nat) :
    docKey (dayDocOf matched w d) = (w, d) := rfl

/-- The day documents produced by one compaction run have pairwise
distinct (workspace, day) keys. -/
theorem archiveDayDocs_keys_nodup (start stop : Nat) (raw : List RawAct) :
    ((archiveDayDocs start stop raw).map docKey).Nodup := by
  unfold archiveDayDocs
  rw [List.map_map]
  have he : (docKey ∘ fun p : Nat × Nat => dayDocOf (matchStage start stop raw) p.1 p.2) =
      id := by
    funext p
    rfl
  rw [he, List.map_id]
  exact List.nodup_dedup _

/-- With key-distinct documents, the keyed search finds a member document
itself. -/
theorem find?_docKey {docs : List ArchiveDoc} {d : ArchiveDoc}
    (hnd : (docs.map docKey).Nodup) (hd : d ∈ docs) :
    docs.find? (fun x => decide (docKey x = docKey d)) = some d := by
  induction docs with
  | nil => cases hd
  | cons a t ih =>
    by_cases hk : docKey a = docKey d
    · rw [List.find?_cons_of_pos _ (by simpa using hk)]
      rcases List.mem_cons.mp hd with h | h
      · rw [h]
      · exact absurd (hk ▸ List.mem_map_of_mem docKey h) (by simpa using (List.nodup_cons.mp hnd).1)
    · rw [List.find?_cons_of_neg _ (by simpa using hk)]
      rcases List.mem_cons.mp hd with h | h
      · exact absurd (congrArg docKey h.symm) hk
      · exact ih (List.nodup_cons.mp hnd).2 h

/-- Every produced document ends up in the merged archive, either by
replacing a matching-key document or by insertion. -/
theorem mem_mergeDocs_of_mem_docs {docs : List ArchiveDoc} {d : ArchiveDoc}
    (archive : List ArchiveDoc) (hnd : (docs.map docKey).Nodup) (hd : d ∈ docs) :
    d ∈ mergeDocs docs archive := by
  by_cases hin : archive.any (fun a => decide (docKey a = docKey d)) = true
  · obtain ⟨a, ha, hk⟩ := List.any_eq_true.mp hin
    refine List.mem_append_left _ ?_
    refine List.mem_map.mpr ⟨a, ha, ?_⟩
    have hk2 : docKey a = docKey d := of_decide_eq_true hk
    rw [show (fun x => decide (docKey x = docKey a)) = (fun x => decide (docKey x = docKey d))
      from by rw [hk2]]
    rw [find?_docKey hnd hd]
    rfl
  · refine List.mem_append_right _ ?_
    refine List.mem_filter.mpr ⟨hd, ?_⟩
    have hfalse : (archive.any fun a => decide (docKey a = docKey d)) = false :=
      Bool.eq_false_iff.mpr hin
    simp [hfalse]

/-- `$merge` with replace-or-insert is idempotent when fed the same
key-distinct documents twice. -/
theorem mergeDocs_idem (docs archive : List ArchiveDoc)
    (hnd : (docs.map docKey).Nodup) :
    mergeDocs docs (mergeDocs docs archive) = mergeDocs docs archive := by
  have hmap : ∀ a ∈ mergeDocs docs archive,
      (docs.find? (fun x => decide (docKey x = docKey a))).getD a = a := by
    intro a ha
    rcases List.mem_append.mp ha with h | h
    · obtain ⟨a0, ha0, rfl⟩ := List.mem_map.mp h
      cases hf : docs.find? (fun x => decide (docKey x = docKey a0)) with
      | none =>
        show (docs.find? (fun x => decide (docKey x = docKey a0))).getD a0 = a0
        rw [hf]
        rfl
      | some dd =>
        have hdd : dd ∈ docs := List.mem_of_find?_eq_some hf
        show (docs.find? (fun x => decide (docKey x = docKey dd))).getD dd = dd
        rw [find?_docKey hnd hdd]
        rfl
    · have hmem := List.mem_filter.mp h
      rw [find?_docKey hnd hmem.1]
      rfl
  have h2 : docs.filter
      (fun d => !((mergeDocs docs archive).any (fun a => decide (docKey a = docKey d)))) =
      [] := by
    rw [List.filter_eq_nil_iff]
    intro d hd
    have hany : ((mergeDocs docs archive).any
        (fun a => decide (docKey a = docKey d))) = true :=
      List.any_eq_true.mpr ⟨d, mem_mergeDocs_of_mem_docs archive hnd hd, by simp⟩
    simp [hany]
  show (mergeDocs docs archive).map _ ++ _ = _
  rw [h2, List.append_nil, List.map_congr_left hmap]
  simp

/-- C2 (confirmed): running the compaction twice in succession over the
same unchanged raw data leaves the archive in the same state as running
it once — the day documents are a pure function of the raw data in
`[start, stop)` and the keyed replace-or-insert merge is idempotent. -/
theorem c2_compaction_idempotent (start stop : Nat) (raw : List RawAct)
    (archive : List ArchiveDoc) :
    archiveActivities start stop raw (archiveActivities start stop raw archive) =
      archiveActivities start stop raw archive :=
  mergeDocs_idem _ _ (archiveDayDocs_keys_nodup start stop raw)

/-! ## C3: daily distinct users are a union, not a sum -/

/-- The number of distinct users contributing raw events to
(workspace `w`, day `d`) within the compacted range. -/
def distinctDayUsers (start stop : Nat) (raw : List RawAct) (w d : Nat) : Nat :=
  (((matchStage start stop raw).filter
      (fun a => decide (a.workspaceId = w ∧ dayOf a.createdAt = d))).map RawAct.userId).dedup.length

theorem dedup_length_eq_of_mem_iff {l₁ l₂ : List Nat}
    (h : ∀ x, x ∈ l₁ ↔ x ∈ l₂) : l₁.dedup.length = l₂.dedup.length := by
  rw [← List.card_toFinset, ← List.card_toFinset]
  congr 1
  ext x
  simp only [List.mem_toFinset]
  exact h x

/-- A user id appears in some hour bucket of a day iff it appears in some
raw event of that day: every matched event lands in exactly the bucket of
its own hour key. -/
theorem dayUsers_mem_iff (matched : List RawAct) (w d : Nat) (u : Nat) :
    u ∈ ((((hourKeys matched).filter
        (fun k => decide (k.workspaceId = w ∧ k.day = d))).map
          (entryOf matched)).map TimelineEntry.userIds).flatten ↔
      u ∈ (matched.filter
        (fun a => decide (a.workspaceId = w ∧ dayOf a.createdAt = d))).map RawAct.userId := by
  constructor
  · intro hu
    obtain ⟨l, hl, hul⟩ := List.mem_flatten.mp hu
    obtain ⟨e, he, rfl⟩ := List.mem_map.mp hl
    obtain ⟨k, hk, rfl⟩ := List.mem_map.mp he
    have hk2 := List.mem_filter.mp hk
    have hkcond : k.workspaceId = w ∧ k.day = d := by simpa using hk2.2
    have hdedup : u ∈ ((bucketEvents matched k).map RawAct.userId).dedup := hul
    obtain ⟨a, ha, rfl⟩ := List.mem_map.mp (List.mem_dedup.mp hdedup)
    have ha2 := List.mem_filter.mp ha
    have hak : hourKeyOf a = k := by simpa using ha2.2
    refine List.mem_map.mpr ⟨a, List.mem_filter.mpr ⟨ha2.1, ?_⟩, rfl⟩
    have h1 : a.workspaceId = w := by rw [← hkcond.1, ← hak]; rfl
    have h2 : dayOf a.createdAt = d := by rw [← hkcond.2, ← hak]; rfl
    simp [h1, h2]
  · intro hu
    obtain ⟨a, ha, rfl⟩ := List.mem_map.mp hu
    have ha2 := List.mem_filter.mp ha
    have hcond : a.workspaceId = w ∧ dayOf a.createdAt = d := by simpa using ha2.2
    refine List.mem_flatten.mpr ⟨(entryOf matched (hourKeyOf a)).userIds, ?_, ?_⟩
    · refine List.mem_map.mpr ⟨entryOf matched (hourKeyOf a), ?_, rfl⟩
      refine List.mem_map.mpr ⟨hourKeyOf a, ?_, rfl⟩
      refine List.mem_filter.mpr ⟨?_, ?_⟩
      · exact List.mem_dedup.mpr (List.mem_map_of_mem hourKeyOf ha2.1)
      · simp [hourKeyOf, hcond.1, hcond.2]
    · show a.userId ∈ ((bucketEvents matched (hourKeyOf a)).map RawAct.userId).dedup
      refine List.mem_dedup.mpr (List.mem_map.mpr ⟨a, ?_, rfl⟩)
      exact List.mem_filter.mpr ⟨ha2.1, by simp⟩

/-- C3 (confirmed): each archive day document's `activeUsersCount` is the
size of the union of the per-(hour, type, deviceType) bucket user-id
sets, and that union equals the set of distinct users contributing raw
events to that (workspace, day) — a user active in several buckets of
the same day is counted exactly once. -/
theorem c3_active_users_union (start stop : Nat) (raw : List RawAct) :
    ∀ doc ∈ archiveDayDocs start stop raw,
      doc.stats.activeUsersCount =
        ((doc.timeline.map TimelineEntry.userIds).flatten).dedup.length ∧
      doc.stats.activeUsersCount =
        distinctDayUsers start stop raw doc.workspaceId doc.date := by
  intro doc hdoc
  obtain ⟨p, hp, rfl⟩ := List.mem_map.mp hdoc
  exact ⟨rfl, dedup_length_eq_of_mem_iff
    (dayUsers_mem_iff (matchStage start stop raw) p.1 p.2)⟩

/-- C3 witness: user 7 scans in hour 3 and in hour 15 of day 0; the day
document counts that user once, by the theorem at this concrete input. -/
theorem c3_active_users_union_witness :
    dayDocOf (matchStage 0 86400
        [⟨1, 7, "SCAN", "SMART_BIN", 10, 3 * 3600⟩, ⟨1, 7, "SCAN", "SMART_BIN", 10, 15 * 3600⟩])
        1 0 ∈
      archiveDayDocs 0 86400
        [⟨1, 7, "SCAN", "SMART_BIN", 10, 3 * 3600⟩, ⟨1, 7, "SCAN", "SMART_BIN", 10, 15 * 3600⟩] ∧
    (dayDocOf (matchStage 0 86400
        [⟨1, 7, "SCAN", "SMART_BIN", 10, 3 * 3600⟩, ⟨1, 7, "SCAN", "SMART_BIN", 10, 15 * 3600⟩])
        1 0).stats.activeUsersCount = 1 ∧
    (dayDocOf (matchStage 0 86400
        [⟨1, 7, "SCAN", "SMART_BIN", 10, 3 * 3600⟩, ⟨1, 7, "SCAN", "SMART_BIN", 10, 15 * 3600⟩])
        1 0).timeline.length = 2 := by
  refine ⟨by decide, ?_, by decide⟩
  have h := (c3_active_users_union 0 86400
    [⟨1, 7, "SCAN", "SMART_BIN", 10, 3 * 3600⟩, ⟨1, 7, "SCAN", "SMART_BIN", 10, 15 * 3600⟩]
    (dayDocOf (matchStage 0 86400
      [⟨1, 7, "SCAN", "SMART_BIN", 10, 3 * 3600⟩, ⟨1, 7, "SCAN", "SMART_BIN", 10, 15 * 3600⟩])
      1 0) (by decide)).2
  rw [h]
  decide

/-! ## C7: lookback-days bounds -/

/-- C7 counterexample: the claim states `days = 0` is a validation
error, but `parseInt(req.query.days) || 7` replaces the falsy `0` by the
default before the bounds check, so the request is served with the
default window instead of being rejected. -/
theorem c7_zero_days_defaulted :
    getWorkspaceArchiveStats (some 0) [] 0 1 =
      DaysCheckedResult.ok
        { period := "last_7_days", totalPoints := 0, totalActivities := 0,
          uniqueUsers := 0, dailyBreakdown := [] } ∧
    getWorkspaceArchiveStats (some 0) [] 0 1 ≠ DaysCheckedResult.invalidDays := by
  have h : getWorkspaceArchiveStats (some 0) [] 0 1 =
      DaysCheckedResult.ok
        { period := "last_7_days", totalPoints := 0, totalActivities := 0,
          uniqueUsers := 0, dailyBreakdown := [] } := by
    simp [getWorkspaceArchiveStats, parseDaysOr, getArchivedStats, selectArchives]
    rfl
  exact ⟨h, by rw [h]; exact fun hc => DaysCheckedResult.noConfusion hc⟩

/-- C7 (amended): a parsed nonzero `days` outside [1, 365] is rejected
with a validation error before any archive data is read (the rejection
is independent of the stored data), but `days = 0` is silently replaced
by the endpoint default (7 for stats, 30 for the breakdown) because
`parseInt(...) || default` treats `0` as falsy. -/
theorem c7_lookback_bounds :
    (∀ (n : Int) (archive : List ArchiveDoc) (now workspaceId : Nat),
      n ≠ 0 → (n < 1 ∨ n > 365) →
      getWorkspaceArchiveStats (some n) archive now workspaceId =
          DaysCheckedResult.invalidDays ∧
      getWorkspaceTypeBreakdown (some n) archive now workspaceId =
          DaysCheckedResult.invalidDays) ∧
    (∀ (archive : List ArchiveDoc) (now workspaceId : Nat),
      getWorkspaceArchiveStats (some 0) archive now workspaceId =
        getWorkspaceArchiveStats none archive now workspaceId ∧
      getWorkspaceTypeBreakdown (some 0) archive now workspaceId =
        getWorkspaceTypeBreakdown none archive now workspaceId) := by
  constructor
  · intro n archive now workspaceId hn0 hrange
    rcases hrange with h | h <;>
      exact ⟨by simp [getWorkspaceArchiveStats, parseDaysOr, hn0, h],
             by simp [getWorkspaceTypeBreakdown, parseDaysOr, hn0, h]⟩
  · intro archive now workspaceId
    exact ⟨by simp [getWorkspaceArchiveStats, parseDaysOr],
           by simp [getWorkspaceTypeBreakdown, parseDaysOr]⟩

/-- C7 witness: `days = 366` is rejected by both endpoints on any data,
by the amended theorem at a concrete input. -/
theorem c7_lookback_bounds_witness :
    getWorkspaceArchiveStats (some 366) [] 0 1 = DaysCheckedResult.invalidDays ∧
    getWorkspaceTypeBreakdown (some 366) [] 0 1 = DaysCheckedResult.invalidDays :=
  c7_lookback_bounds.1 366 [] 0 1 (by decide) (Or.inr (by decide))

/-! ## C4: incremental sync lower bound -/

/-- C4 counterexample: the claim states an activity created at exactly
the `since` instant is excluded (strict bound), but the query uses
`$gte`: with one activity created at time 100 and `since = 100`, the
activity is returned. -/
theorem c4_since_boundary_included :
    getActivities
      ⟨[], [], [⟨1, 1, 0, 0, 50⟩], [],
        [⟨1, 1, none, "SMART_BIN", "SCAN", "Waste Scanned", "d", 10, 100⟩], 200⟩
      1 1 (some 100) none =
      Except.ok [⟨1, 1, none, "SMART_BIN", "SCAN", "Waste Scanned", "d", 10, 100⟩] := by
  simp [getActivities, findMembership, List.mergeSort]

/-- C4 (amended): the returned sequence contains exactly the workspace's
activities whose creation time is greater than *or equal to* the
caller-supplied `since` (an activity created at exactly the `since`
instant is included, `$gte`); when `since` is absent the inclusive lower
bound is the caller's membership join date, so no returned activity
strictly predates the membership. -/
theorem c4_incremental_sync_inclusive
    (s : ServerState) (workspaceId userId : Nat) (since : Option Nat) (m : Membership)
    (hm : findMembership s workspaceId userId = some m) :
    ∃ acts, getActivities s workspaceId userId since none = .ok acts ∧
      ∀ a : ActivityRec, a ∈ acts ↔
        (a ∈ s.activities ∧ a.workspaceId = workspaceId ∧
          (match since with
            | some t => t
            | none => m.joinedDate) ≤ a.createdAt) := by
  refine ⟨(s.activities.filter (fun a =>
      decide (a.workspaceId = workspaceId ∧
        (match since with
          | some t => t
          | none => m.joinedDate) ≤ a.createdAt))).mergeSort
      (fun a b => decide (b.createdAt ≤ a.createdAt)), ?_, ?_⟩
  · simp only [getActivities, hm]
  · intro a
    rw [(List.mergeSort_perm _ _).mem_iff, List.mem_filter]
    simp only [decide_eq_true_eq]

/-- C4 witness: the amended theorem applied at a concrete store. -/
theorem c4_incremental_sync_inclusive_witness :
    ∃ acts, getActivities
        ⟨[], [], [⟨1, 1, 0, 0, 50⟩], [],
          [⟨1, 1, none, "SMART_BIN", "SCAN", "Waste Scanned", "d", 10, 100⟩], 200⟩
        1 1 (some 100) none = .ok acts ∧
      ∀ a : ActivityRec, a ∈ acts ↔
        (a ∈ [(⟨1, 1, none, "SMART_BIN", "SCAN", "Waste Scanned", "d", 10, 100⟩ : ActivityRec)] ∧
          a.workspaceId = 1 ∧ 100 ≤ a.createdAt) := by
  have h := c4_incremental_sync_inclusive
    ⟨[], [], [⟨1, 1, 0, 0, 50⟩], [],
      [⟨1, 1, none, "SMART_BIN", "SCAN", "Waste Scanned", "d", 10, 100⟩], 200⟩
    1 1 (some 100) ⟨1, 1, 0, 0, 50⟩ rfl
  simpa using h

/-! ## C9: MY_ACTIVITY retention clamp -/

/-- A member of a taken, sorted filtering satisfies the filter. -/
theorem mem_take_mergeSort_filter {α : Type} {p : α → Bool} {le : α → α → Bool}
    {l : List α} {n : Nat} {a : α}
    (ha : a ∈ ((l.filter p).mergeSort le).take n) : p a = true :=
  (List.mem_filter.mp ((List.mergeSort_perm _ _).mem_iff.mp (List.mem_of_mem_take ha))).2

theorem retentionFloor_le_effectiveStart (startDate : Option Nat) (now : Nat) :
    retentionFloor now ≤ effectiveStart startDate now := by
  cases startDate with
  | none => exact le_refl _
  | some st =>
    show retentionFloor now ≤ if st > retentionFloor now then st else retentionFloor now
    split_ifs with h
    · exact le_of_lt h
    · exact le_refl _

/-- C9 (confirmed): the effective lower bound of a `MY_ACTIVITY` export
is the maximum of the requested `startDate` and the 30-day retention
floor; a `startDate` predating the floor is silently clamped (the export
still succeeds) and every returned row's creation time is at least the
floor. -/
theorem c9_retention_clamp :
    (∀ (s : ServerState) (workspaceId userId : Nat)
       (deviceType activityType : Option String) (startDate endDate : Option Nat)
       (m : Membership),
      findMembership s workspaceId userId = some m →
      ∃ rows, exportMyActivity s workspaceId userId deviceType activityType
          startDate endDate = .ok rows ∧
        ∀ a ∈ rows, retentionFloor s.now ≤ a.createdAt) ∧
    (∀ (st now : Nat), effectiveStart (some st) now = max st (retentionFloor now)) := by
  constructor
  · intro s workspaceId userId deviceType activityType startDate endDate m hm
    refine ⟨((s.activities.filter (fun a =>
        decide (a.workspaceId = workspaceId ∧ a.userId = userId ∧
          effectiveStart startDate s.now ≤ a.createdAt ∧
          a.createdAt ≤ endOfDay (match endDate with
            | some e => e
            | none => s.now) ∧
          (∀ t, deviceType = some t → a.deviceType = t) ∧
          (∀ t, activityType = some t → a.type = t)))).mergeSort
        (fun a b => decide (b.createdAt ≤ a.createdAt))).take 10000, ?_, ?_⟩
    · simp only [exportMyActivity, hm]
    · intro a ha
      have hp := mem_take_mergeSort_filter ha
      have hc := of_decide_eq_true hp
      exact le_trans (retentionFloor_le_effectiveStart startDate s.now) hc.2.2.1
  · intro st now
    show (if st > retentionFloor now then st else retentionFloor now) =
      max st (retentionFloor now)
    split_ifs with h <;> omega

/-- C9 witness: a request whose `startDate` is 60 days before `now` is
served (not rejected) and clamped, by the theorem at a concrete store
with one in-window and one out-of-window activity. -/
theorem c9_retention_clamp_witness :
    (∃ rows, exportMyActivity
        ⟨[], [], [⟨1, 1, 0, 0, 0⟩], [],
          [⟨1, 1, none, "SMART_BIN", "SCAN", "t", "d", 10, 95 * 86400⟩,
           ⟨1, 1, none, "SMART_BIN", "SCAN", "t", "d", 10, 50 * 86400⟩], 100 * 86400⟩
        1 1 none none (some (40 * 86400)) none = .ok rows ∧
      ∀ a ∈ rows, retentionFloor (100 * 86400) ≤ a.createdAt) ∧
    effectiveStart (some (40 * 86400)) (100 * 86400) =
      max (40 * 86400) (retentionFloor (100 * 86400)) :=
  ⟨c9_retention_clamp.1
      ⟨[], [], [⟨1, 1, 0, 0, 0⟩], [],
        [⟨1, 1, none, "SMART_BIN", "SCAN", "t", "d", 10, 95 * 86400⟩,
         ⟨1, 1, none, "SMART_BIN", "SCAN", "t", "d", 10, 50 * 86400⟩], 100 * 86400⟩
      1 1 none none (some (40 * 86400)) none ⟨1, 1, 0, 0, 0⟩ rfl,
   c9_retention_clamp.2 (40 * 86400) (100 * 86400)⟩

/-! ## C10: replay vs decryption failure messages -/

/-- C10 counterexample: a decryption failure and a replay rejection
return different caller-visible `(error, message)` pairs — the replay
answer explicitly says the QR code was already scanned, so the two are
distinguishable, contrary to the claim. -/
theorem c10_messages_distinguishable :
    (scanDevice (fun _ => none) 1 1 ⟨some "junk", none, none, none⟩
        ⟨[], [], [], [], [], 0⟩).1 = ScanOutcome.fail ScanErr.decryptionFailed ∧
    (scanDevice
        (fun _ => some ⟨some (JsVal.vStr "BIN-004"), some (JsVal.vStr "SMART_BIN"),
          some (JsVal.vStr "SCAN"), some (JsVal.vNum 5)⟩)
        1 1 ⟨some "blob", none, none, none⟩
        ⟨[⟨"oid1", "BIN-004", "Bin", "SMART_BIN", 1, some 5⟩], [],
          [⟨1, 1, 0, 0, 0⟩], [], [], 0⟩).1 = ScanOutcome.fail ScanErr.replayDetected ∧
    scanErrMessage ScanErr.decryptionFailed ≠ scanErrMessage ScanErr.replayDetected := by
  refine ⟨rfl, ?_, by decide⟩
  rfl

/-- C10 (amended): the decryption-failure and replay-rejection responses
are *distinguishable*: whenever one workspace-scoped scan fails with
`decryptionFailed` and another fails with `replayDetected`, the rendered
`(error, message)` pairs differ — consistent with the failure taxonomy
that maps each failure to a distinct caller-visible error. -/
theorem c10_failure_messages_distinct
    (decrypt₁ decrypt₂ : String → Option RawPayload) (u₁ u₂ w₁ w₂ : Nat)
    (b₁ b₂ : ScanBody) (s₁ s₂ : ServerState) (e₁ e₂ : ScanErr)
    (h₁ : (scanDevice decrypt₁ u₁ w₁ b₁ s₁).1 = ScanOutcome.fail e₁)
    (he₁ : e₁ = ScanErr.decryptionFailed)
    (h₂ : (scanDevice decrypt₂ u₂ w₂ b₂ s₂).1 = ScanOutcome.fail e₂)
    (he₂ : e₂ = ScanErr.replayDetected) :
    scanErrMessage e₁ ≠ scanErrMessage e₂ := by
  subst he₁
  subst he₂
  decide

/-- C10 witness: the amended theorem applied to the two concrete failing
requests of the counterexample. -/
theorem c10_failure_messages_distinct_witness :
    scanErrMessage ScanErr.decryptionFailed ≠ scanErrMessage ScanErr.replayDetected :=
  c10_failure_messages_distinct (fun _ => none)
    (fun _ => some ⟨some (JsVal.vStr "BIN-004"), some (JsVal.vStr "SMART_BIN"),
      some (JsVal.vStr "SCAN"), some (JsVal.vNum 5)⟩)
    1 1 1 1 ⟨some "junk", none, none, none⟩ ⟨some "blob", none, none, none⟩
    ⟨[], [], [], [], [], 0⟩
    ⟨[⟨"oid1", "BIN-004", "Bin", "SMART_BIN", 1, some 5⟩], [],
      [⟨1, 1, 0, 0, 0⟩], [], [], 0⟩
    ScanErr.decryptionFailed ScanErr.replayDetected rfl rfl (by rfl) rfl

/-! ## C5: ordering of membership gate and device resolution -/

/-- C5 counterexample: in the workspace-scoped endpoint the membership
gate runs *before* device resolution.  With no devices anywhere and a
caller holding no membership, the reported failure is `notAMember`, not
the device-resolution failure the claim requires. -/
theorem c5_nonmember_gets_membership_error :
    (⟨[], [], [], [], [], 0⟩ : ServerState).devices = [] ∧
    findMembership ⟨[], [], [], [], [], 0⟩ 1 1 = none ∧
    (scanDevice (fun _ => none) 1 1 ⟨none, some "X", some "SCAN", none⟩
        ⟨[], [], [], [], [], 0⟩).1 = ScanOutcome.fail ScanErr.notAMember ∧
    ScanOutcome.fail ScanErr.notAMember ≠ ScanOutcome.fail ScanErr.deviceNotFound := by
  exact ⟨rfl, rfl, rfl, by decide⟩

/-- C5 (amended): the workspace-scoped scan runs the membership gate
before device resolution.  For a SCAN request: a caller with no
membership in the target workspace gets the `notAMember` failure even
when the device resolves nowhere; only a member whose `deviceId` fails
to resolve in the workspace gets `deviceNotFound` (or the
`workspaceMismatch` redirect when the device lives elsewhere). -/
theorem c5_membership_gate_before_device
    (decrypt : String → Option RawPayload) (userId wsId : Nat) (body : ScanBody)
    (s : ServerState) (payload : Option RawPayload) (fdid faction ftype : Option JsVal)
    (hnorm : normalizeScanBody decrypt body = .ok (payload, fdid, faction, ftype))
    (hact : faction = some (JsVal.vStr "SCAN")) :
    (findMembership s wsId userId = none →
      (scanDevice decrypt userId wsId body s).1 = ScanOutcome.fail ScanErr.notAMember) ∧
    (∀ m, findMembership s wsId userId = some m →
      resolveWorkspaceDevice s fdid wsId userId = .error ScanErr.deviceNotFound →
      (scanDevice decrypt userId wsId body s).1 = ScanOutcome.fail ScanErr.deviceNotFound) ∧
    (∀ m w n b, findMembership s wsId userId = some m →
      resolveWorkspaceDevice s fdid wsId userId = .error (ScanErr.workspaceMismatch w n b) →
      (scanDevice decrypt userId wsId body s).1 =
        ScanOutcome.fail (ScanErr.workspaceMismatch w n b)) := by
  subst hact
  refine ⟨?_, ?_, ?_⟩
  · intro hmem
    simp [scanDevice, hnorm, hmem, jsTruthyOpt, jsTruthy]
  · intro m hmem hres
    simp [scanDevice, hnorm, hmem, hres, jsTruthyOpt, jsTruthy]
  · intro m w n b hmem hres
    simp [scanDevice, hnorm, hmem, hres, jsTruthyOpt, jsTruthy]

/-- C5 witness: a member whose device resolves nowhere gets
`deviceNotFound`, by the amended theorem at a concrete store. -/
theorem c5_membership_gate_before_device_witness :
    (scanDevice (fun _ => none) 1 1 ⟨none, some "X", some "SCAN", none⟩
        ⟨[], [], [⟨1, 1, 0, 0, 0⟩], [], [], 0⟩).1 =
      ScanOutcome.fail ScanErr.deviceNotFound :=
  (c5_membership_gate_before_device (fun _ => none) 1 1
      ⟨none, some "X", some "SCAN", none⟩ ⟨[], [], [⟨1, 1, 0, 0, 0⟩], [], [], 0⟩
      none (some (JsVal.vStr "X")) (some (JsVal.vStr "SCAN")) none rfl rfl).2.1
    ⟨1, 1, 0, 0, 0⟩ rfl rfl

/-! ## C6: legacy plain scans skip replay protection -/

/-- One legacy (plain-field) SCAN request by a member, against a device
resolved in the workspace, reduces to the award-and-log step: the replay
branch is skipped because `payload` is undefined on the legacy path. -/
theorem legacy_scan_step (decrypt : String → Option RawPayload) (s : ServerState)
    (uid ws : Nat) (dId : String) (t : Option String)
    (m : Membership) (d : Device) (u : UserRec)
    (hm : findMembership s ws uid = some m)
    (hd : findDeviceByDeviceIdInWs s (JsVal.vStr dId) ws = some d)
    (hu : findUser s uid = some u) :
    scanDevice decrypt uid ws ⟨none, some dId, some "SCAN", t⟩ s =
      finishScan uid ws (t.map JsVal.vStr) d m (some u) s := by
  simp [scanDevice, normalizeScanBody, resolveWorkspaceDevice, findDeviceInWsOpt,
    awardWorkspaceScan, hm, hd, hu, jsTruthyOpt, jsTruthy]

/-- Writing back a keyed record leaves it findable: the keyed search over
the updated list returns the written record. -/
theorem find?_update_membership (l : List Membership) (m2 : Membership)
    (h : (l.find? (fun x =>
      decide (x.workspaceId = m2.workspaceId ∧ x.userId = m2.userId))).isSome = true) :
    (l.map (fun x =>
        if x.workspaceId = m2.workspaceId ∧ x.userId = m2.userId then m2 else x)).find?
      (fun x => decide (x.workspaceId = m2.workspaceId ∧ x.userId = m2.userId)) = some m2 := by
  induction l with
  | nil => simp at h
  | cons a tl ih =>
    by_cases ha : a.workspaceId = m2.workspaceId ∧ a.userId = m2.userId
    · simp only [List.map_cons, if_pos ha]
      exact List.find?_cons_of_pos _ (by simp)
    · simp only [List.map_cons, if_neg ha]
      rw [List.find?_cons_of_neg _ (by simpa using ha)]
      apply ih
      rw [List.find?_cons_of_neg _ (by simpa using ha)] at h
      exact h

/-- Same for the user collection. -/
theorem find?_update_user (l : List UserRec) (u2 : UserRec)
    (h : (l.find? (fun x => decide (x.uid = u2.uid))).isSome = true) :
    (l.map (fun x => if x.uid = u2.uid then u2 else x)).find?
      (fun x => decide (x.uid = u2.uid)) = some u2 := by
  induction l with
  | nil => simp at h
  | cons a tl ih =>
    by_cases ha : a.uid = u2.uid
    · simp only [List.map_cons, if_pos ha]
      exact List.find?_cons_of_pos _ (by simp)
    · simp only [List.map_cons, if_neg ha]
      rw [List.find?_cons_of_neg _ (by simpa using ha)]
      apply ih
      rw [List.find?_cons_of_neg _ (by simpa using ha)] at h
      exact h

/-- The membership record remains findable, with bumped counters, after
the award step. -/
theorem findMembership_finishScan (uid ws : Nat) (ft : Option JsVal) (d : Device)
    (m : Membership) (uo : Option UserRec) (s : ServerState)
    (hkw : m.workspaceId = ws) (hku : m.userId = uid)
    (hm : findMembership s ws uid = some m) :
    findMembership (finishScan uid ws ft d m uo s).2 ws uid =
      some { m with points := m.points + 10, scanCount := m.scanCount + 1 } := by
  subst hkw
  subst hku
  have hmPre : (s.memberships.find? (fun x =>
      decide (x.workspaceId = m.workspaceId ∧ x.userId = m.userId))).isSome = true := by
    have hmL : s.memberships.find? (fun x =>
        decide (x.workspaceId = m.workspaceId ∧ x.userId = m.userId)) = some m := hm
    rw [hmL]
    rfl
  cases uo with
  | none =>
    exact find?_update_membership s.memberships
      { m with points := m.points + 10, scanCount := m.scanCount + 1 } hmPre
  | some u0 =>
    exact find?_update_membership s.memberships
      { m with points := m.points + 10, scanCount := m.scanCount + 1 } hmPre

/-- The user record remains findable, with bumped counters, after the
award step. -/
theorem findUser_finishScan (uid ws : Nat) (ft : Option JsVal) (d : Device)
    (m : Membership) (u : UserRec) (s : ServerState)
    (huid : u.uid = uid) (hu : findUser s uid = some u) :
    findUser (finishScan uid ws ft d m (some u) s).2 uid =
      some { u with points := u.points + 10, scanCount := u.scanCount + 1 } := by
  subst huid
  have huPre : (s.users.find? (fun x => decide (x.uid = u.uid))).isSome = true := by
    have huL : s.users.find? (fun x => decide (x.uid = u.uid)) = some u := hu
    rw [huL]
    rfl
  exact find?_update_user s.users
    { u with points := u.points + 10, scanCount := u.scanCount + 1 } huPre

/-- C6 (confirmed): a legacy plain-form SCAN request never touches the
replay state: the scan succeeds for any value of the device's
`lastUniqueCode`, awards 10 points, logs one SCAN activity, and leaves
the device collection unchanged; repeating the identical request
succeeds again with another 10 points and another activity. -/
theorem c6_legacy_scan_skips_replay
    (decrypt : String → Option RawPayload) (s : ServerState) (uid ws : Nat)
    (dId : String) (t : Option String) (m : Membership) (d : Device) (u : UserRec)
    (hm : findMembership s ws uid = some m)
    (hd : findDeviceByDeviceIdInWs s (JsVal.vStr dId) ws = some d)
    (hu : findUser s uid = some u) :
    (∃ res1, (scanDevice decrypt uid ws ⟨none, some dId, some "SCAN", t⟩ s).1 =
        ScanOutcome.ok res1 ∧ res1.pointsEarned = 10 ∧
        res1.workspacePoints = m.points + 10 ∧ res1.totalPoints = u.points + 10 ∧
        res1.scanCount = m.scanCount + 1) ∧
    (scanDevice decrypt uid ws ⟨none, some dId, some "SCAN", t⟩ s).2.devices =
      s.devices ∧
    (∃ act1, (scanDevice decrypt uid ws ⟨none, some dId, some "SCAN", t⟩ s).2.activities =
        s.activities ++ [act1] ∧ act1.type = "SCAN" ∧ act1.points = 10) ∧
    (∃ res2, (scanDevice decrypt uid ws ⟨none, some dId, some "SCAN", t⟩
        (scanDevice decrypt uid ws ⟨none, some dId, some "SCAN", t⟩ s).2).1 =
        ScanOutcome.ok res2 ∧ res2.pointsEarned = 10 ∧
        res2.workspacePoints = m.points + 20 ∧ res2.totalPoints = u.points + 20 ∧
        res2.scanCount = m.scanCount + 2) ∧
    (scanDevice decrypt uid ws ⟨none, some dId, some "SCAN", t⟩
        (scanDevice decrypt uid ws ⟨none, some dId, some "SCAN", t⟩ s).2).2.devices =
      s.devices ∧
    (∃ act2, (scanDevice decrypt uid ws ⟨none, some dId, some "SCAN", t⟩
        (scanDevice decrypt uid ws ⟨none, some dId, some "SCAN", t⟩ s).2).2.activities =
        (scanDevice decrypt uid ws ⟨none, some dId, some "SCAN", t⟩ s).2.activities ++
          [act2] ∧ act2.type = "SCAN" ∧ act2.points = 10) := by
  have hmL : s.memberships.find?
      (fun x => decide (x.workspaceId = ws ∧ x.userId = uid)) = some m := hm
  have huL : s.users.find? (fun x => decide (x.uid = uid)) = some u := hu
  have hpm := List.find?_some hmL
  have hpu := List.find?_some huL
  obtain ⟨hkw, hku⟩ : m.workspaceId = ws ∧ m.userId = uid := by simpa using hpm
  have hkuu : u.uid = uid := by simpa using hpu
  subst hkw
  subst hku
  have h1 := legacy_scan_step decrypt s m.userId m.workspaceId dId t m d u hm hd hu
  -- lookups re-established in the post-state of the first scan
  have hm2 := findMembership_finishScan m.userId m.workspaceId (t.map JsVal.vStr)
    d m (some u) s rfl rfl hm
  have hu2 := findUser_finishScan m.userId m.workspaceId (t.map JsVal.vStr)
    d m u s hkuu hu
  have hd2 : findDeviceByDeviceIdInWs
      (finishScan m.userId m.workspaceId (t.map JsVal.vStr) d m (some u) s).2
      (JsVal.vStr dId) m.workspaceId = some d := hd
  have h2 := legacy_scan_step decrypt
    (finishScan m.userId m.workspaceId (t.map JsVal.vStr) d m (some u) s).2
    m.userId m.workspaceId dId t
    { m with points := m.points + 10, scanCount := m.scanCount + 1 } d
    { u with points := u.points + 10, scanCount := u.scanCount + 1 } hm2 hd2 hu2
  rw [h1, h2]
  refine ⟨⟨_, rfl, rfl, rfl, rfl, rfl⟩, rfl, ⟨_, rfl, rfl, rfl⟩,
    ⟨_, rfl, rfl, ?_, ?_, ?_⟩, rfl, ⟨_, rfl, rfl, rfl⟩⟩ <;> simp

/-- C6 witness: the theorem at a concrete store — a member with 50
workspace points and 100 global points scans a plain legacy payload and
earns 10 points although the device's `lastUniqueCode` is 5 and no
`uniqueCode` accompanies the request. -/
theorem c6_legacy_scan_skips_replay_witness :
    ∃ res1, (scanDevice (fun _ => none) 1 1 ⟨none, some "BIN-1", some "SCAN", none⟩
        ⟨[⟨"oid1", "BIN-1", "Bin", "SMART_BIN", 1, some 5⟩], [],
          [⟨1, 1, 50, 5, 0⟩], [⟨1, 100, 7⟩], [], 0⟩).1 = ScanOutcome.ok res1 ∧
      res1.pointsEarned = 10 ∧ res1.workspacePoints = 60 ∧
      res1.totalPoints = 110 ∧ res1.scanCount = 6 := by
  have h := (c6_legacy_scan_skips_replay (fun _ => none)
    ⟨[⟨"oid1", "BIN-1", "Bin", "SMART_BIN", 1, some 5⟩], [],
      [⟨1, 1, 50, 5, 0⟩], [⟨1, 100, 7⟩], [], 0⟩
    1 1 "BIN-1" none ⟨1, 1, 50, 5, 0⟩
    ⟨"oid1", "BIN-1", "Bin", "SMART_BIN", 1, some 5⟩ ⟨1, 100, 7⟩ rfl rfl rfl).1
  simpa using h

/-! ## C1: replay protection and monotonicity of lastUniqueCode -/

theorem resolveGlobalDevice_mem {s : ServerState} {v : JsVal} {d : Device}
    (h : resolveGlobalDevice s v = .ok d) : d ∈ s.devices := by
  unfold resolveGlobalDevice at h
  split at h
  · cases h
    exact List.mem_of_find?_eq_some (by assumption)
  · split at h
    · split at h
      · split at h
        · cases h
          exact List.mem_of_find?_eq_some (by assumption)
        · cases h
      · cases h
    · cases h

theorem resolveWorkspaceDevice_mem {s : ServerState} {v : Option JsVal}
    {ws uid : Nat} {d : Device}
    (h : resolveWorkspaceDevice s v ws uid = .ok d) : d ∈ s.devices := by
  unfold resolveWorkspaceDevice at h
  split at h
  · rename_i heq
    cases h
    unfold findDeviceInWsOpt at heq
    split at heq
    · exact List.mem_of_find?_eq_some heq
    · exact List.mem_of_find?_eq_some heq
  · split at h
    · split at h
      · split at h
        · cases h
          exact List.mem_of_find?_eq_some (by assumption)
        · unfold elsewhereCheck at h
          split at h <;> cases h
      · unfold elsewhereCheck at h
        split at h <;> cases h
    · cases h

theorem finishScan_devices (uid ws : Nat) (ft : Option JsVal) (d : Device)
    (m : Membership) (uo : Option UserRec) (s : ServerState) :
    (finishScan uid ws ft d m uo s).2.devices = s.devices := by
  cases uo <;> rfl

/-- Replacing one device by a copy with a larger replay counter keeps
every stored counter at least as large as before. -/
theorem updateDevice_mono (s : ServerState) (d0 : Device) (q : ℚ)
    (hmem : d0 ∈ s.devices) (hlt : lastCode d0 < q) :
    ∀ d2 ∈ (updateDevice s { d0 with lastUniqueCode := some q }).devices,
      ∃ d1 ∈ s.devices, d1.oid = d2.oid ∧ lastCode d1 ≤ lastCode d2 := by
  intro d2 hd2
  obtain ⟨x, hx, hxe⟩ := List.mem_map.mp hd2
  by_cases hc : x.oid = ({ d0 with lastUniqueCode := some q } : Device).oid
  · rw [if_pos hc] at hxe
    refine ⟨d0, hmem, ?_, ?_⟩
    · rw [← hxe]
    · rw [← hxe]
      exact le_of_lt hlt
  · rw [if_neg hc] at hxe
    exact ⟨x, hx, by rw [hxe], by rw [hxe]⟩

/-- Global endpoint: a stale `uniqueCode` reaching the replay check is
rejected and the state is returned untouched. -/
theorem scanGlobal_replay_reject (decrypt : String → Option RawPayload)
    (uid : Nat) (blob : String) (s : ServerState) (p : RawPayload)
    (d : Device) (m : Membership) (q : ℚ)
    (hdec : decrypt blob = some p)
    (hval : validatePayload (some p) = ValResult.valid)
    (hact : p.action = some (JsVal.vStr "SCAN"))
    (hres : resolveGlobalDevice s (p.deviceId.getD JsVal.vNull) = .ok d)
    (hmem : findMembership s d.workspaceId uid = some m)
    (huc : p.uniqueCode = some (JsVal.vNum q))
    (hle : q ≤ lastCode d) :
    scanDeviceGlobal decrypt uid (some blob) s =
      (ScanOutcome.fail ScanErr.replayDetected, s) := by
  simp [scanDeviceGlobal, hdec, hval, hact, hres, hmem, huc, hle]

/-- Global endpoint: a fresh `uniqueCode` reaching the replay check is
persisted on the device before the award step runs. -/
theorem scanGlobal_accept (decrypt : String → Option RawPayload)
    (uid : Nat) (blob : String) (s : ServerState) (p : RawPayload)
    (d : Device) (m : Membership) (q : ℚ)
    (hdec : decrypt blob = some p)
    (hval : validatePayload (some p) = ValResult.valid)
    (hact : p.action = some (JsVal.vStr "SCAN"))
    (hres : resolveGlobalDevice s (p.deviceId.getD JsVal.vNull) = .ok d)
    (hmem : findMembership s d.workspaceId uid = some m)
    (huc : p.uniqueCode = some (JsVal.vNum q))
    (hgt : ¬ q ≤ lastCode d) :
    scanDeviceGlobal decrypt uid (some blob) s =
      finishScan uid d.workspaceId p.type { d with lastUniqueCode := some q } m
        (findUser (updateDevice s { d with lastUniqueCode := some q }) uid)
        (updateDevice s { d with lastUniqueCode := some q }) := by
  simp [scanDeviceGlobal, hdec, hval, hact, hres, hmem, huc, hgt]

/-- Workspace endpoint: a stale `uniqueCode` on the encrypted path is
rejected and the state is returned untouched. -/
theorem scanWs_replay_reject (decrypt : String → Option RawPayload)
    (uid ws : Nat) (body : ScanBody) (blob : String) (s : ServerState)
    (p : RawPayload) (d : Device) (m : Membership) (q : ℚ)
    (henc : body.encryptedPayload = some blob)
    (hdec : decrypt blob = some p)
    (hval : validatePayload (some p) = ValResult.valid)
    (hact : p.action = some (JsVal.vStr "SCAN"))
    (hmem : findMembership s ws uid = some m)
    (hres : resolveWorkspaceDevice s p.deviceId ws uid = .ok d)
    (huc : p.uniqueCode = some (JsVal.vNum q))
    (hle : q ≤ lastCode d) :
    scanDevice decrypt uid ws body s =
      (ScanOutcome.fail ScanErr.replayDetected, s) := by
  simp [scanDevice, normalizeScanBody, henc, hdec, hval, hact, hmem, hres, huc, hle,
    jsTruthyOpt, jsTruthy]

/-- Workspace endpoint: a fresh `uniqueCode` on the encrypted path is
persisted on the device before the user lookup and award step. -/
theorem scanWs_accept (decrypt : String → Option RawPayload)
    (uid ws : Nat) (body : ScanBody) (blob : String) (s : ServerState)
    (p : RawPayload) (d : Device) (m : Membership) (q : ℚ)
    (henc : body.encryptedPayload = some blob)
    (hdec : decrypt blob = some p)
    (hval : validatePayload (some p) = ValResult.valid)
    (hact : p.action = some (JsVal.vStr "SCAN"))
    (hmem : findMembership s ws uid = some m)
    (hres : resolveWorkspaceDevice s p.deviceId ws uid = .ok d)
    (huc : p.uniqueCode = some (JsVal.vNum q))
    (hgt : ¬ q ≤ lastCode d) :
    scanDevice decrypt uid ws body s =
      awardWorkspaceScan uid ws p.type { d with lastUniqueCode := some q } m
        (updateDevice s { d with lastUniqueCode := some q }) := by
  simp [scanDevice, normalizeScanBody, henc, hdec, hval, hact, hmem, hres, huc, hgt,
    jsTruthyOpt, jsTruthy]

/-- Global endpoint: stored replay counters never decrease — every
device in the post-state has a same-`_id` device in the pre-state with a
counter at most as large. -/
theorem scanGlobal_devices_mono (decrypt : String → Option RawPayload)
    (uid : Nat) (ep : Option String) (s : ServerState) :
    ∀ d2 ∈ (scanDeviceGlobal decrypt uid ep s).2.devices,
      ∃ d1 ∈ s.devices, d1.oid = d2.oid ∧ lastCode d1 ≤ lastCode d2 := by
  intro d2 hd2
  unfold scanDeviceGlobal at hd2
  split at hd2
  · exact ⟨d2, hd2, rfl, le_refl _⟩
  · split at hd2
    · exact ⟨d2, hd2, rfl, le_refl _⟩
    · split at hd2
      · exact ⟨d2, hd2, rfl, le_refl _⟩
      · split at hd2
        · exact ⟨d2, hd2, rfl, le_refl _⟩
        · split at hd2
          · exact ⟨d2, hd2, rfl, le_refl _⟩
          · split at hd2
            · exact ⟨d2, hd2, rfl, le_refl _⟩
            · split at hd2
              · split at hd2
                · exact ⟨d2, hd2, rfl, le_refl _⟩
                · simp only [finishScan_devices] at hd2
                  refine updateDevice_mono s _ _ ?_ ?_ d2 hd2
                  · exact resolveGlobalDevice_mem (by assumption)
                  · exact not_le.mp (by assumption)
              · simp only [finishScan_devices] at hd2
                exact ⟨d2, hd2, rfl, le_refl _⟩

/-- Workspace endpoint: stored replay counters never decrease. -/
theorem scanWs_devices_mono (decrypt : String → Option RawPayload)
    (uid ws : Nat) (body : ScanBody) (s : ServerState) :
    ∀ d2 ∈ (scanDevice decrypt uid ws body s).2.devices,
      ∃ d1 ∈ s.devices, d1.oid = d2.oid ∧ lastCode d1 ≤ lastCode d2 := by
  intro d2 hd2
  unfold scanDevice at hd2
  split at hd2
  · exact ⟨d2, hd2, rfl, le_refl _⟩
  · split at hd2
    · exact ⟨d2, hd2, rfl, le_refl _⟩
    · split at hd2
      · exact ⟨d2, hd2, rfl, le_refl _⟩
      · split at hd2
        · exact ⟨d2, hd2, rfl, le_refl _⟩
        · split at hd2
          · exact ⟨d2, hd2, rfl, le_refl _⟩
          · split at hd2
            · exact ⟨d2, hd2, rfl, le_refl _⟩
            · split at hd2
              · split at hd2
                · split at hd2
                  · exact ⟨d2, hd2, rfl, le_refl _⟩
                  · -- fresh code: the device is saved before the user lookup
                    simp only [awardWorkspaceScan] at hd2
                    split at hd2
                    · refine updateDevice_mono s _ _ ?_ ?_ d2 hd2
                      · exact resolveWorkspaceDevice_mem (by assumption)
                      · exact not_le.mp (by assumption)
                    · simp only [finishScan_devices] at hd2
                      refine updateDevice_mono s _ _ ?_ ?_ d2 hd2
                      · exact resolveWorkspaceDevice_mem (by assumption)
                      · exact not_le.mp (by assumption)
                · simp only [awardWorkspaceScan] at hd2
                  split at hd2
                  · exact ⟨d2, hd2, rfl, le_refl _⟩
                  · simp only [finishScan_devices] at hd2
                    exact ⟨d2, hd2, rfl, le_refl _⟩
              · simp only [awardWorkspaceScan] at hd2
                split at hd2
                · exact ⟨d2, hd2, rfl, le_refl _⟩
                · simp only [finishScan_devices] at hd2
                  exact ⟨d2, hd2, rfl, le_refl _⟩

/-- Global endpoint: an accepted scan carrying a fresh `uniqueCode`
succeeds and stores exactly that strictly greater value on the device. -/
theorem scanGlobal_accept_sets (decrypt : String → Option RawPayload)
    (uid : Nat) (blob : String) (s : ServerState) (p : RawPayload)
    (d : Device) (m : Membership) (q : ℚ)
    (hdec : decrypt blob = some p)
    (hval : validatePayload (some p) = ValResult.valid)
    (hact : p.action = some (JsVal.vStr "SCAN"))
    (hres : resolveGlobalDevice s (p.deviceId.getD JsVal.vNull) = .ok d)
    (hmem : findMembership s d.workspaceId uid = some m)
    (huc : p.uniqueCode = some (JsVal.vNum q))
    (hgt : ¬ q ≤ lastCode d) :
    (∃ res, (scanDeviceGlobal decrypt uid (some blob) s).1 = ScanOutcome.ok res) ∧
    ∃ d2 ∈ (scanDeviceGlobal decrypt uid (some blob) s).2.devices,
      d2.oid = d.oid ∧ d2.lastUniqueCode = some q ∧ lastCode d < q := by
  have hacc := scanGlobal_accept decrypt uid blob s p d m q
    hdec hval hact hres hmem huc hgt
  rw [hacc]
  constructor
  · exact ⟨_, rfl⟩
  · rw [finishScan_devices]
    exact ⟨{ d with lastUniqueCode := some q },
      List.mem_map.mpr ⟨d, resolveGlobalDevice_mem hres, by rw [if_pos rfl]⟩,
      rfl, rfl, not_le.mp hgt⟩

/-- Workspace endpoint: an accepted encrypted scan carrying a fresh
`uniqueCode` succeeds and stores exactly that strictly greater value. -/
theorem scanWs_accept_sets (decrypt : String → Option RawPayload)
    (uid ws : Nat) (body : ScanBody) (blob : String) (s : ServerState)
    (p : RawPayload) (d : Device) (m : Membership) (u : UserRec) (q : ℚ)
    (henc : body.encryptedPayload = some blob)
    (hdec : decrypt blob = some p)
    (hval : validatePayload (some p) = ValResult.valid)
    (hact : p.action = some (JsVal.vStr "SCAN"))
    (hmem : findMembership s ws uid = some m)
    (hres : resolveWorkspaceDevice s p.deviceId ws uid = .ok d)
    (huc : p.uniqueCode = some (JsVal.vNum q))
    (hgt : ¬ q ≤ lastCode d)
    (huser : findUser (updateDevice s { d with lastUniqueCode := some q }) uid = some u) :
    (∃ res, (scanDevice decrypt uid ws body s).1 = ScanOutcome.ok res) ∧
    ∃ d2 ∈ (scanDevice decrypt uid ws body s).2.devices,
      d2.oid = d.oid ∧ d2.lastUniqueCode = some q ∧ lastCode d < q := by
  have hacc := scanWs_accept decrypt uid ws body blob s p d m q
    henc hdec hval hact hmem hres huc hgt
  rw [hacc]
  simp only [awardWorkspaceScan, huser]
  constructor
  · exact ⟨_, rfl⟩
  · rw [finishScan_devices]
    exact ⟨{ d with lastUniqueCode := some q },
      List.mem_map.mpr ⟨d, resolveWorkspaceDevice_mem hres, by rw [if_pos rfl]⟩,
      rfl, rfl, not_le.mp hgt⟩

/-- C1 (confirmed): on both scan endpoints, a payload whose `uniqueCode`
is less than or equal to the device's stored `lastUniqueCode` (`|| 0`)
is rejected as a replay with the whole state unchanged — no points, no
counters, no activity; an accepted scan carrying a `uniqueCode` stores
exactly that strictly greater value on the device; and the stored
`lastUniqueCode` of every device never decreases across any request. -/
theorem c1_replay_protection :
    (∀ (decrypt : String → Option RawPayload) (uid : Nat) (blob : String)
       (s : ServerState) (p : RawPayload) (d : Device) (m : Membership) (q : ℚ),
      decrypt blob = some p →
      validatePayload (some p) = ValResult.valid →
      p.action = some (JsVal.vStr "SCAN") →
      resolveGlobalDevice s (p.deviceId.getD JsVal.vNull) = .ok d →
      findMembership s d.workspaceId uid = some m →
      p.uniqueCode = some (JsVal.vNum q) →
      q ≤ lastCode d →
      scanDeviceGlobal decrypt uid (some blob) s =
        (ScanOutcome.fail ScanErr.replayDetected, s)) ∧
    (∀ (decrypt : String → Option RawPayload) (uid : Nat) (ep : Option String)
       (s : ServerState),
      ∀ d2 ∈ (scanDeviceGlobal decrypt uid ep s).2.devices,
        ∃ d1 ∈ s.devices, d1.oid = d2.oid ∧ lastCode d1 ≤ lastCode d2) ∧
    (∀ (decrypt : String → Option RawPayload) (uid : Nat) (blob : String)
       (s : ServerState) (p : RawPayload) (d : Device) (m : Membership) (q : ℚ),
      decrypt blob = some p →
      validatePayload (some p) = ValResult.valid →
      p.action = some (JsVal.vStr "SCAN") →
      resolveGlobalDevice s (p.deviceId.getD JsVal.vNull) = .ok d →
      findMembership s d.workspaceId uid = some m →
      p.uniqueCode = some (JsVal.vNum q) →
      ¬ q ≤ lastCode d →
      (∃ res, (scanDeviceGlobal decrypt uid (some blob) s).1 = ScanOutcome.ok res) ∧
      ∃ d2 ∈ (scanDeviceGlobal decrypt uid (some blob) s).2.devices,
        d2.oid = d.oid ∧ d2.lastUniqueCode = some q ∧ lastCode d < q) ∧
    (∀ (decrypt : String → Option RawPayload) (uid ws : Nat) (body : ScanBody)
       (blob : String) (s : ServerState) (p : RawPayload) (d : Device)
       (m : Membership) (q : ℚ),
      body.encryptedPayload = some blob →
      decrypt blob = some p →
      validatePayload (some p) = ValResult.valid →
      p.action = some (JsVal.vStr "SCAN") →
      findMembership s ws uid = some m →
      resolveWorkspaceDevice s p.deviceId ws uid = .ok d →
      p.uniqueCode = some (JsVal.vNum q) →
      q ≤ lastCode d →
      scanDevice decrypt uid ws body s =
        (ScanOutcome.fail ScanErr.replayDetected, s)) ∧
    (∀ (decrypt : String → Option RawPayload) (uid ws : Nat) (body : ScanBody)
       (s : ServerState),
      ∀ d2 ∈ (scanDevice decrypt uid ws body s).2.devices,
        ∃ d1 ∈ s.devices, d1.oid = d2.oid ∧ lastCode d1 ≤ lastCode d2) ∧
    (∀ (decrypt : String → Option RawPayload) (uid ws : Nat) (body : ScanBody)
       (blob : String) (s : ServerState) (p : RawPayload) (d : Device)
       (m : Membership) (u : UserRec) (q : ℚ),
      body.encryptedPayload = some blob →
      decrypt blob = some p →
      validatePayload (some p) = ValResult.valid →
      p.action = some (JsVal.vStr "SCAN") →
      findMembership s ws uid = some m →
      resolveWorkspaceDevice s p.deviceId ws uid = .ok d →
      p.uniqueCode = some (JsVal.vNum q) →
      ¬ q ≤ lastCode d →
      findUser (updateDevice s { d with lastUniqueCode := some q }) uid = some u →
      (∃ res, (scanDevice decrypt uid ws body s).1 = ScanOutcome.ok res) ∧
      ∃ d2 ∈ (scanDevice decrypt uid ws body s).2.devices,
        d2.oid = d.oid ∧ d2.lastUniqueCode = some q ∧ lastCode d < q) :=
  ⟨scanGlobal_replay_reject, scanGlobal_devices_mono, scanGlobal_accept_sets,
   scanWs_replay_reject, scanWs_devices_mono, scanWs_accept_sets⟩

/-- C1 witness: a concrete device with stored counter 5 rejects a replay
of `uniqueCode = 5` on the global endpoint with the state unchanged, by
the theorem at concrete inputs. -/
theorem c1_replay_protection_witness :
    scanDeviceGlobal
      (fun _ => some ⟨some (JsVal.vStr "BIN-004"), some (JsVal.vStr "SMART_BIN"),
        some (JsVal.vStr "SCAN"), some (JsVal.vNum 5)⟩)
      1 (some "blob")
      ⟨[⟨"oid1", "BIN-004", "Bin", "SMART_BIN", 1, some 5⟩], [],
        [⟨1, 1, 0, 0, 0⟩], [], [], 0⟩ =
      (ScanOutcome.fail ScanErr.replayDetected,
        ⟨[⟨"oid1", "BIN-004", "Bin", "SMART_BIN", 1, some 5⟩], [],
          [⟨1, 1, 0, 0, 0⟩], [], [], 0⟩) :=
  c1_replay_protection.1
    (fun _ => some ⟨some (JsVal.vStr "BIN-004"), some (JsVal.vStr "SMART_BIN"),
      some (JsVal.vStr "SCAN"), some (JsVal.vNum 5)⟩)
    1 "blob"
    ⟨[⟨"oid1", "BIN-004", "Bin", "SMART_BIN", 1, some 5⟩], [],
      [⟨1, 1, 0, 0, 0⟩], [], [], 0⟩
    ⟨some (JsVal.vStr "BIN-004"), some (JsVal.vStr "SMART_BIN"),
      some (JsVal.vStr "SCAN"), some (JsVal.vNum 5)⟩
    ⟨"oid1", "BIN-004", "Bin", "SMART_BIN", 1, some 5⟩
    ⟨1, 1, 0, 0, 0⟩ 5 rfl rfl rfl rfl rfl rfl (by decide)

end EcoTrade
